import Mathlib

/-!
Verification development for the jira-api-script repository.

The repository is a small TypeScript CLI that queries a Jira REST API for
project components without a lead and counts the issues referencing them.
The core logic embedded here:

* `createPaginationChunks` (src/createPaginationChunks.ts) — the pure
  pagination planner;
* the two zod response schemas and the `JiraAPI` client
  (`getComponents`, `getIssuesByComponents`) from src/JiraAPI.ts;
* the aggregation in `getJiraComponentsWithoutLead` (src/app.ts).

Modelling decisions (shallow embedding of the TypeScript source):

* JavaScript numbers are modelled as `ℚ`.  Every arithmetic operation the
  planner performs on inputs that pass its `Number.isSafeInteger` guards is
  exact in IEEE doubles (all intermediate values stay below 2^53), so exact
  rational arithmetic is a faithful model on the reachable inputs; `ℚ` also
  lets non-integer inputs to the guards be represented.  NaN/Infinity have
  no counterpart in `ℚ`; no claim depends on them.
* `fetch` is modelled as a pure oracle `Url → HttpResponse` supplied by the
  caller, and response bodies are a `Json` inductive; the zod schemas become
  recursive validators returning `Except ZodError`.
* The async control flow of `getIssuesByComponents` is modelled after the
  JavaScript event loop: the `Promise.all` callbacks each run their
  synchronous prefix (two `url.searchParams.set` calls on the one shared
  `URL` object, then the `fetch` call, which snapshots the URL when the
  request is constructed) serially in list order before any response is
  processed.  The order in which the concurrent responses then settle is an
  explicit parameter `order : List Nat` (indices into the remaining-window
  list); `Promise.all` rejects with the error of the first settled rejection
  in that order, or resolves with the results in list order.
* A `JiraResponseError` thrown by a callback stores a reference to the
  shared `URL` object.  By the time any rejection is observed by the caller
  every callback has already run its synchronous prefix, so the URL state
  seen through the error is the final one (the last window's parameters).
  The model therefore records the final URL value in such errors.
* Error messages keep the source wording except that apostrophes are
  dropped (e.g. `Option pageSize needs to be a positive safe integer.`).
-/

/-- A parsed URL: the part before the query string, plus the decoded
`searchParams` key/value list in order.  `URLSearchParams.set` replaces the
value of an existing key in place, else appends; this client never creates
duplicate keys. -/
structure Url where
  path : String
  params : List (String × String)
deriving DecidableEq

/-- Model of `URLSearchParams.set` on the parameter list: replace the first
occurrence of the key in place, or append the pair at the end. -/
def setParamList : List (String × String) → String → String → List (String × String)
  | [], k, v => [(k, v)]
  | p :: rest, k, v =>
    if p.1 = k then (k, v) :: rest else p :: setParamList rest k v

/-- Model of `url.searchParams.set(k, v)`. -/
def Url.setP (u : Url) (k v : String) : Url :=
  { u with params := setParamList u.params k v }

/-- Model of `url.searchParams.get(k)`. -/
def Url.getP (u : Url) (k : String) : Option String :=
  (u.params.find? (fun p => p.1 == k)).map (fun p => p.2)

/-- A JSON value, the type of every response body. -/
inductive Json where
  | null
  | bool (b : Bool)
  | num (n : ℚ)
  | str (s : String)
  | arr (items : List Json)
  | obj (fields : List (String × Json))

/-- Model of a `fetch` `Response`: status code, status text and the body
already decoded from JSON. -/
structure HttpResponse where
  status : Nat
  statusText : String
  body : Json

/-- Payload of a zod validation failure (the path of the first failing
field plus a message); the client propagates it unmodified. -/
structure ZodError where
  path : List String
  message : String
deriving DecidableEq

/-- The three error kinds the program can throw: `ZodError` from schema
validation, `JiraResponseError` (carrying url, status and status text) from
a non-200 response, and `TypeError` from the planner's argument guards. -/
inductive JiraError where
  | zodError (e : ZodError)
  | jiraResponseError (url : Url) (status : Nat) (statusText : String)
  | typeError (message : String)
deriving DecidableEq

/-- Decidable equality for `Except` results, used to evaluate the model on
concrete inputs. -/
instance {e a : Type} [DecidableEq e] [DecidableEq a] : DecidableEq (Except e a) := fun x y =>
  match x, y with
  | .ok u, .ok v =>
    if h : u = v then isTrue (by rw [h]) else isFalse (fun c => h (by injection c))
  | .error u, .error v =>
    if h : u = v then isTrue (by rw [h]) else isFalse (fun c => h (by injection c))
  | .ok _, .error _ => isFalse (fun c => Except.noConfusion c)
  | .error _, .ok _ => isFalse (fun c => Except.noConfusion c)

/-- Largest double that `Number.isSafeInteger` accepts, 2^53 - 1. -/
def maxSafeInteger : ℚ := 9007199254740991

/-- Model of `Number.isSafeInteger`: an integer of magnitude at most
2^53 - 1 (NaN/Infinity are not representable in `ℚ`). -/
def IsSafeInteger (q : ℚ) : Prop := q.den = 1 ∧ |q| ≤ maxSafeInteger

instance (q : ℚ) : Decidable (IsSafeInteger q) := by
  unfold IsSafeInteger
  infer_instance

/-- One pagination window, `{ startAt, pageSize }`. -/
structure PageWindow where
  startAt : ℚ
  pageSize : ℚ
deriving DecidableEq

/-- Embedding of `createPaginationChunks` from src/createPaginationChunks.ts:
guard both options with `Number.isSafeInteger`, compute
`pageCount = Math.ceil(total / pageSize)` and
`lastPageSize = total - pageSize * (pageCount - 1)`, then build the window
at each index of `Array.from({length: pageCount})`. -/
def createPaginationChunks (pageSize total : ℚ) : Except JiraError (List PageWindow) :=
  if ¬ IsSafeInteger pageSize ∨ pageSize ≤ 0 then
    .error (.typeError "Option pageSize needs to be a positive safe integer.")
  else if ¬ IsSafeInteger total ∨ total < 0 then
    .error (.typeError "Option total needs to be a non-negative safe integer.")
  else
    let pageCount : ℤ := ⌈total / pageSize⌉
    let lastPageSize : ℚ := total - pageSize * ((pageCount : ℚ) - 1)
    .ok ((List.range pageCount.toNat).map fun (index : ℕ) =>
      { startAt := (index : ℚ) * pageSize
        pageSize := if index = pageCount.toNat - 1 then lastPageSize else pageSize })

/-! The response validators: shallow embedding of the two zod schemas in
src/JiraAPI.ts.  `z.object` requires a JSON object, reads the listed keys
and ignores unknown ones; a missing required key or a mistyped value fails.
zod collects every issue, the model keeps only the first failing path —
no claim depends on more than the error kind. -/

/-- Component lead as validated by `GetComponentsResponseSchema`. -/
structure ComponentLead where
  accountId : String
  displayName : String
deriving DecidableEq

/-- Component as validated by `GetComponentsResponseSchema`; `lead` is
`z.optional`, i.e. `none` when the key is absent. -/
structure Component where
  id : String
  name : String
  lead : Option ComponentLead
deriving DecidableEq

/-- Component reference inside an issue's `fields.components`. -/
structure IssueComponentRef where
  id : String
  name : String
deriving DecidableEq

/-- The `fields` object of an issue. -/
structure IssueFields where
  components : List IssueComponentRef
deriving DecidableEq

/-- Issue as validated by `GetIssuesByComponentsResponseSchema`. -/
structure Issue where
  id : String
  fields : IssueFields
deriving DecidableEq

/-- Wire-level issue-search page: `{startAt, maxResults, total, issues}`. -/
structure IssuePage where
  startAt : ℚ
  maxResults : ℚ
  total : ℚ
  issues : List Issue
deriving DecidableEq

/-- Look up a key among a JSON object's fields (first occurrence). -/
def objField (fields : List (String × Json)) (k : String) : Option Json :=
  (fields.find? (fun f => f.1 == k)).map (fun f => f.2)

/-- Read a required key of a JSON object, failing with the zod `Required`
issue when it is absent. -/
def requiredField (path : List String) (fields : List (String × Json)) (k : String) :
    Except ZodError Json :=
  match objField fields k with
  | some v => .ok v
  | none => .error ⟨path ++ [k], "Required"⟩

/-- Model of `z.string()`. -/
def parseString (path : List String) : Json → Except ZodError String
  | .str s => .ok s
  | _ => .error ⟨path, "Expected string"⟩

/-- Model of `z.number()` (NaN is not representable in the model). -/
def parseNumber (path : List String) : Json → Except ZodError ℚ
  | .num n => .ok n
  | _ => .error ⟨path, "Expected number"⟩

/-- Validator for the `lead` object `{accountId, displayName}`. -/
def parseComponentLead (path : List String) (j : Json) : Except ZodError ComponentLead :=
  match j with
  | .obj fields => do
    let accountId ← parseString (path ++ ["accountId"]) (← requiredField path fields "accountId")
    let displayName ← parseString (path ++ ["displayName"]) (← requiredField path fields "displayName")
    .ok { accountId := accountId, displayName := displayName }
  | _ => .error ⟨path, "Expected object"⟩

/-- Validator for one component object `{id, name, lead?}`. -/
def parseComponent (path : List String) (j : Json) : Except ZodError Component :=
  match j with
  | .obj fields => do
    let id ← parseString (path ++ ["id"]) (← requiredField path fields "id")
    let name ← parseString (path ++ ["name"]) (← requiredField path fields "name")
    let lead ← match objField fields "lead" with
      | none => Except.ok none
      | some lj => (parseComponentLead (path ++ ["lead"]) lj).map some
    .ok { id := id, name := name, lead := lead }
  | _ => .error ⟨path, "Expected object"⟩

/-- Validate the elements of the component array in order; `i` is the index
of the first element, used for the zod error path. -/
def parseComponentItems (path : List String) (i : Nat) :
    List Json → Except ZodError (List Component)
  | [] => .ok []
  | j :: rest => do
    let c ← parseComponent (path ++ [toString i]) j
    let cs ← parseComponentItems path (i + 1) rest
    .ok (c :: cs)

/-- Embedding of `GetComponentsResponseSchema.parse`: a JSON array of
component objects. -/
def parseGetComponentsResponse (j : Json) : Except ZodError (List Component) :=
  match j with
  | .arr items => parseComponentItems [] 0 items
  | _ => .error ⟨[], "Expected array"⟩

/-- Validator for one `{id, name}` component reference. -/
def parseIssueComponentRef (path : List String) (j : Json) : Except ZodError IssueComponentRef :=
  match j with
  | .obj fields => do
    let id ← parseString (path ++ ["id"]) (← requiredField path fields "id")
    let name ← parseString (path ++ ["name"]) (← requiredField path fields "name")
    .ok { id := id, name := name }
  | _ => .error ⟨path, "Expected object"⟩

/-- Validate the elements of a `fields.components` array in order. -/
def parseIssueComponentRefItems (path : List String) (i : Nat) :
    List Json → Except ZodError (List IssueComponentRef)
  | [] => .ok []
  | j :: rest => do
    let r ← parseIssueComponentRef (path ++ [toString i]) j
    let rs ← parseIssueComponentRefItems path (i + 1) rest
    .ok (r :: rs)

/-- Validator for an issue's `fields` object. -/
def parseIssueFields (path : List String) (j : Json) : Except ZodError IssueFields :=
  match j with
  | .obj fields =>
    match requiredField path fields "components" with
    | .error e => .error e
    | .ok cj =>
      match cj with
      | .arr items =>
        (parseIssueComponentRefItems (path ++ ["components"]) 0 items).map
          fun refs => { components := refs }
      | _ => .error ⟨path ++ ["components"], "Expected array"⟩
  | _ => .error ⟨path, "Expected object"⟩

/-- Validator for one issue object `{id, fields}`. -/
def parseIssue (path : List String) (j : Json) : Except ZodError Issue :=
  match j with
  | .obj fields => do
    let id ← parseString (path ++ ["id"]) (← requiredField path fields "id")
    let fs ← parseIssueFields (path ++ ["fields"]) (← requiredField path fields "fields")
    .ok { id := id, fields := fs }
  | _ => .error ⟨path, "Expected object"⟩

/-- Validate the elements of the `issues` array in order. -/
def parseIssueItems (path : List String) (i : Nat) :
    List Json → Except ZodError (List Issue)
  | [] => .ok []
  | j :: rest => do
    let x ← parseIssue (path ++ [toString i]) j
    let xs ← parseIssueItems path (i + 1) rest
    .ok (x :: xs)

/-- Embedding of `GetIssuesByComponentsResponseSchema.parse`: an object
`{startAt: number, maxResults: number, total: number, issues: array}`. -/
def parseGetIssuesByComponentsResponse (j : Json) : Except ZodError IssuePage :=
  match j with
  | .obj fields => do
    let startAt ← parseNumber (["startAt"]) (← requiredField [] fields "startAt")
    let maxResults ← parseNumber (["maxResults"]) (← requiredField [] fields "maxResults")
    let total ← parseNumber (["total"]) (← requiredField [] fields "total")
    let issues ← match requiredField [] fields "issues" with
      | .error e => Except.error e
      | .ok ij =>
        match ij with
        | .arr items => parseIssueItems ["issues"] 0 items
        | _ => Except.error ⟨["issues"], "Expected array"⟩
    .ok { startAt := startAt, maxResults := maxResults, total := total, issues := issues }
  | _ => .error ⟨[], "Expected object"⟩

example : parseGetComponentsResponse (.obj [("abc", .str "xyz")]) =
    .error ⟨[], "Expected array"⟩ := by decide

example : parseGetComponentsResponse (.arr []) = .ok [] := by decide

example : parseGetComponentsResponse
    (.arr [.obj [("id", .str "10128"), ("name", .str "Synchronization"),
                 ("self", .str "ignored")]]) =
    .ok [{ id := "10128", name := "Synchronization", lead := none }] := by decide

/-! The Jira client (src/JiraAPI.ts) and the aggregator (src/app.ts). -/

/-- Client configuration `{baseUrl, projectId}`. -/
structure JiraConfig where
  baseUrl : String
  projectId : String

/-- Model of JavaScript `String(n)` for the numbers this client prints into
URLs; on the reachable inputs these are always integers. -/
def jsNumberToString (q : ℚ) : String :=
  if q.den = 1 then toString q.num else toString q.num ++ "/" ++ toString q.den

/-- URL of the components endpoint,
`{baseUrl}/rest/api/3/project/{projectId}/components`. -/
def componentsUrl (cfg : JiraConfig) : Url :=
  ⟨cfg.baseUrl ++ "/rest/api/3/project/" ++ cfg.projectId ++ "/components", []⟩

/-- The search URL as built at the start of `getIssuesByComponents`:
`{baseUrl}/rest/api/3/search` with the five query parameters set in source
order (requested page size `10000`, `startAt=0`, strict validation, the
`id,components` field subset and the JQL filter). -/
def initialSearchUrl (cfg : JiraConfig) (componentIds : List String) : Url :=
  ((((Url.setP ⟨cfg.baseUrl ++ "/rest/api/3/search", []⟩
    "startAt" "0")
    |>.setP "maxResults" "10000")
    |>.setP "validateQuery" "strict")
    |>.setP "fields" "id,components")
    |>.setP "jql"
      ("project = " ++ cfg.projectId ++ " AND component IN ("
        ++ String.intercalate ", " componentIds ++ ")")

/-- Embedding of `JiraAPI.getComponents`, paired with the list of URLs
fetched (the request log): one GET, `JiraResponseError` on non-200,
otherwise the body validated by `GetComponentsResponseSchema`. -/
def getComponentsRun (cfg : JiraConfig) (server : Url → HttpResponse) :
    List Url × Except JiraError (List Component) :=
  let url := componentsUrl cfg
  let res := server url
  ([url],
    if res.status ≠ 200 then
      .error (.jiraResponseError url res.status res.statusText)
    else
      match parseGetComponentsResponse res.body with
      | .error e => .error (.zodError e)
      | .ok comps => .ok comps)

/-- Promise.all rejection: the error of the first settled rejection in
completion order (`order` indexes the concurrent callbacks). -/
def firstRejection {e a : Type} : List (Except e a) → List Nat → Option e
  | _, [] => none
  | results, i :: rest =>
    match results.get? i with
    | some (.error err) => some err
    | _ => firstRejection results rest

/-- Promise.all resolution: all callback results in list order, or the
first error in list order if one is somehow missed by `firstRejection`. -/
def collectOk {e a : Type} : List (Except e a) → Except e (List a)
  | [] => .ok []
  | .error err :: _ => .error err
  | .ok x :: rest =>
    match collectOk rest with
    | .error err => .error err
    | .ok xs => .ok (x :: xs)

/-- The synchronous prefixes of the `Promise.all` callbacks in
`getIssuesByComponents`, run serially in window order: each one mutates the
one shared `URL` object (`startAt`, then `maxResults`) and then initiates
its fetch, which snapshots the URL.  Returns the final state of the shared
URL together with the URL snapshots fetched, in window order. -/
def issueFanout (url : Url) (rest : List PageWindow) : Url × List Url :=
  rest.foldl
    (fun acc w =>
      let u2 := (acc.1.setP "startAt" (jsNumberToString w.startAt)).setP
        "maxResults" (jsNumberToString w.pageSize)
      (u2, acc.2 ++ [u2]))
    (url, [])

/-- Response handling of one non-first page callback.  On a non-200 status
the thrown `JiraResponseError` stores the shared `URL` object, whose state
when any rejection is observed is the final one (`finalUrl`), because every
callback's synchronous mutations ran before any response settled. -/
def processPageResponse (finalUrl : Url) (res : HttpResponse) :
    Except JiraError (List Issue) :=
  if res.status ≠ 200 then
    .error (.jiraResponseError finalUrl res.status res.statusText)
  else
    match parseGetIssuesByComponentsResponse res.body with
    | .error e => .error (.zodError e)
    | .ok d => .ok d.issues

/-- The concurrent part of `getIssuesByComponents` after the first page
succeeded and the remaining windows `rest` are planned: run the fan-out,
consult the server for each snapshot URL, process each response, and settle
the `Promise.all` — rejecting with the first rejection in completion order
`order`, or resolving with the first batch and all remaining batches
concatenated in window order and flattened. -/
def issuesPhase2 (url : Url) (server : Url → HttpResponse) (order : List Nat)
    (firstBatch : List Issue) (rest : List PageWindow) :
    List Url × Except JiraError (List Issue) :=
  let fan := issueFanout url rest
  let results := fan.2.map (fun u => processPageResponse fan.1 (server u))
  let outcome :=
    match firstRejection results order with
    | some e => Except.error e
    | none =>
      match collectOk results with
      | .error e => Except.error e
      | .ok batches => Except.ok ((firstBatch :: batches).flatten)
  (url :: fan.2, outcome)

/-- Embedding of `JiraAPI.getIssuesByComponents`, paired with the request
log.  Fetch the first page; fail on non-200 or invalid body; plan the
remaining windows with `createPaginationChunks(maxResults, total)` minus
the first window (`.slice(1)`); then run the concurrent phase. -/
def getIssuesByComponentsRun (cfg : JiraConfig) (componentIds : List String)
    (server : Url → HttpResponse) (order : List Nat) :
    List Url × Except JiraError (List Issue) :=
  let url := initialSearchUrl cfg componentIds
  let firstRes := server url
  if firstRes.status ≠ 200 then
    ([url], .error (.jiraResponseError url firstRes.status firstRes.statusText))
  else
    match parseGetIssuesByComponentsResponse firstRes.body with
    | .error e => ([url], .error (.zodError e))
    | .ok firstData =>
      match createPaginationChunks firstData.maxResults firstData.total with
      | .error e => ([url], .error e)
      | .ok chunks => issuesPhase2 url server order firstData.issues (chunks.drop 1)

/-- One reporting entry `{id, name, issues}`. -/
structure ReportEntry where
  id : String
  name : String
  issues : Nat
deriving DecidableEq

/-- Model of `Map.set` on a string-keyed map. -/
def mapSet (m : String → Option Nat) (k : String) (v : Nat) : String → Option Nat :=
  fun x => if x = k then some v else m x

/-- The `issuesCountByComponentId` map of `getJiraComponentsWithoutLead`:
for each issue and each of its component references, increment the count
stored under that reference's id (`(get ?? 0) + 1`). -/
def issuesCountByComponentId (issues : List Issue) : String → Option Nat :=
  issues.foldl
    (fun m issue =>
      issue.fields.components.foldl
        (fun m2 comp => mapSet m2 comp.id ((m2 comp.id).getD 0 + 1))
        m)
    (fun _ => none)

/-- The reporting step of `getJiraComponentsWithoutLead`: one entry per
component without a lead, in component order, with the count looked up in
the map (`?? 0`). -/
def reportFor (componentsWithoutLead : List Component) (issues : List Issue) :
    List ReportEntry :=
  componentsWithoutLead.map fun c =>
    { id := c.id, name := c.name,
      issues := ((issuesCountByComponentId issues) c.id).getD 0 }

/-- Embedding of `getJiraComponentsWithoutLead` (src/app.ts), paired with
the request log: fetch components, keep those without a lead, return `[]`
if there are none, otherwise fetch the issues for their ids and build the
report. -/
def getJiraComponentsWithoutLeadRun (cfg : JiraConfig)
    (server : Url → HttpResponse) (order : List Nat) :
    List Url × Except JiraError (List ReportEntry) :=
  match getComponentsRun cfg server with
  | (log, .error e) => (log, .error e)
  | (log, .ok components) =>
    let componentsWithoutLead := components.filter fun c => c.lead.isNone
    if componentsWithoutLead.length = 0 then (log, .ok [])
    else
      match getIssuesByComponentsRun cfg (componentsWithoutLead.map fun c => c.id)
          server order with
      | (log2, .error e) => (log ++ log2, .error e)
      | (log2, .ok issues) => (log ++ log2, .ok (reportFor componentsWithoutLead issues))

/-- Modelled from the spec wording of C7 (for refutation only): the number
of matching issues referencing a component id. -/
def specIssuesReferencingCount (issues : List Issue) (cid : String) : Nat :=
  (issues.filter fun issue => issue.fields.components.any fun r => r.id == cid).length

/-- The reference count the code actually computes: component references
with the given id, summed over all issues (an issue listing the same
component twice contributes twice). -/
def referenceCount (issues : List Issue) (cid : String) : Nat :=
  (issues.map fun issue => issue.fields.components.countP fun r => r.id == cid).sum

/-! Concrete fixtures: a configuration, JSON bodies and server oracles used
to evaluate the model on explicit inputs. -/

/-- The configuration used by the repository's tests. -/
def cfgX : JiraConfig := ⟨"https://xxx.atlassian.net", "XYZ"⟩

/-- JSON body of one issue with the given id and `(id, name)` component
references. -/
def issueJson (id : String) (refs : List (String × String)) : Json :=
  .obj [("id", .str id),
        ("fields", .obj [("components",
          .arr (refs.map fun r => .obj [("id", .str r.1), ("name", .str r.2)]))])]

/-- The issue value `issueJson` validates to. -/
def issueVal (id : String) (refs : List (String × String)) : Issue :=
  { id := id, fields := { components := refs.map fun r => { id := r.1, name := r.2 } } }

/-- JSON body of one issue-search page. -/
def pageJson (startAt maxResults total : ℚ) (issues : List Json) : Json :=
  .obj [("startAt", .num startAt), ("maxResults", .num maxResults),
        ("total", .num total), ("issues", .arr issues)]

/-- A server answering the issue search with total 8 at confirmed page
size 2: four pages of two issues each, selected by the `startAt` query
parameter. -/
def serverPaged8 : Url → HttpResponse := fun u =>
  if u.getP "startAt" = some "0" then
    ⟨200, "OK", pageJson 0 2 8 [issueJson "1" [("c1", "C")], issueJson "2" [("c1", "C")]]⟩
  else if u.getP "startAt" = some "2" then
    ⟨200, "OK", pageJson 2 2 8 [issueJson "3" [("c1", "C")], issueJson "4" [("c1", "C")]]⟩
  else if u.getP "startAt" = some "4" then
    ⟨200, "OK", pageJson 4 2 8 [issueJson "5" [("c1", "C")], issueJson "6" [("c1", "C")]]⟩
  else if u.getP "startAt" = some "6" then
    ⟨200, "OK", pageJson 6 2 8 [issueJson "7" [("c1", "C")], issueJson "8" [("c1", "C")]]⟩
  else ⟨404, "Not Found", .null⟩

/-- A server reporting total 6 at confirmed page size 2 whose `startAt=2`
page fails with HTTP 400 while the `startAt=4` page succeeds. -/
def serverFail2of6 : Url → HttpResponse := fun u =>
  if u.getP "startAt" = some "2" then ⟨400, "Bad Request", .null⟩
  else if u.getP "startAt" = some "4" then
    ⟨200, "OK", pageJson 4 2 6 [issueJson "5" [("c1", "C")], issueJson "6" [("c1", "C")]]⟩
  else ⟨200, "OK", pageJson 0 2 6 [issueJson "1" [("c1", "C")], issueJson "2" [("c1", "C")]]⟩

/-- Like `serverFail2of6` but reporting total 4, so the failing `startAt=2`
window is the only remaining window. -/
def serverFail2of4 : Url → HttpResponse := fun u =>
  if u.getP "startAt" = some "2" then ⟨400, "Bad Request", .null⟩
  else ⟨200, "OK", pageJson 0 2 4 [issueJson "1" [("c1", "C")], issueJson "2" [("c1", "C")]]⟩

/-- A server whose first page reports maxResults 0 and total 0 with an
empty issue list — a validly-shaped page on which the planner's guard
fires. -/
def serverZeroZero : Url → HttpResponse := fun _ =>
  ⟨200, "OK", pageJson 0 0 0 []⟩

/-- A server whose first page reports maxResults 50 and total 0. -/
def serverTotalZero : Url → HttpResponse := fun _ =>
  ⟨200, "OK", pageJson 0 50 0 []⟩

/-- A server answering every request with HTTP 400 and an empty body. -/
def server400 : Url → HttpResponse := fun _ => ⟨400, "Bad Request", .null⟩

/-- A server answering every request with 200 and the invalid body
`{ "abc": "xyz" }`. -/
def serverAbcXyz : Url → HttpResponse := fun _ =>
  ⟨200, "OK", .obj [("abc", .str "xyz")]⟩

/-- A server answering every request with 200 and the empty JSON array. -/
def serverEmptyComponents : Url → HttpResponse := fun _ => ⟨200, "OK", .arr []⟩

/-- A server whose component list has every component equipped with a
lead. -/
def serverAllLead : Url → HttpResponse := fun _ =>
  ⟨200, "OK", .arr [.obj [("id", .str "10128"), ("name", .str "Synchronization"),
    ("lead", .obj [("accountId", .str "a1"), ("displayName", .str "Ada")])]]⟩

/-! Helper lemmas. -/

/-- The planner succeeds exactly when both guards pass, and then returns
the literal window list of the source. -/
lemma createPaginationChunks_ok (P T : ℚ) (h1 : IsSafeInteger P) (h2 : 0 < P)
    (h3 : IsSafeInteger T) (h4 : 0 ≤ T) :
    createPaginationChunks P T =
      .ok ((List.range (⌈T / P⌉).toNat).map fun (index : ℕ) =>
        { startAt := (index : ℚ) * P
          pageSize := if index = (⌈T / P⌉).toNat - 1
            then T - P * (((⌈T / P⌉ : ℤ) : ℚ) - 1) else P }) := by
  unfold createPaginationChunks
  rw [if_neg (by push_neg; exact ⟨h1, h2⟩), if_neg (by push_neg; exact ⟨h3, h4⟩)]

/-- The planner on guard-passing inputs, with the page count supplied as a
natural number (for evaluating concrete calls). -/
lemma createPaginationChunks_eval (P T : ℚ) (n : ℕ) (h1 : IsSafeInteger P) (h2 : 0 < P)
    (h3 : IsSafeInteger T) (h4 : 0 ≤ T) (hn : ⌈T / P⌉ = (n : ℤ)) :
    createPaginationChunks P T =
      .ok ((List.range n).map fun (index : ℕ) =>
        { startAt := (index : ℚ) * P
          pageSize := if index = n - 1 then T - P * ((n : ℚ) - 1) else P }) := by
  rw [createPaginationChunks_ok P T h1 h2 h3 h4, hn]
  norm_num

example : createPaginationChunks 0 0 =
    .error (.typeError "Option pageSize needs to be a positive safe integer.") := by decide

example : createPaginationChunks (-10) 100 =
    .error (.typeError "Option pageSize needs to be a positive safe integer.") := by decide

example : createPaginationChunks 10 (-100) =
    .error (.typeError "Option total needs to be a non-negative safe integer.") := by decide

/-- Planner evaluation at pageSize 10, total 25 (the first example in the
repository's tests). -/
lemma chunks_10_25 : createPaginationChunks 10 25 =
    .ok [⟨0, 10⟩, ⟨10, 10⟩, ⟨20, 5⟩] := by
  rw [createPaginationChunks_eval 10 25 3 (by decide) (by decide) (by decide) (by decide)
    (by rw [Int.ceil_eq_iff]; norm_num)]
  norm_num [List.range_succ]

/-- Planner evaluation at pageSize 2, total 8 (the paginated test case). -/
lemma chunks_2_8 : createPaginationChunks 2 8 =
    .ok [⟨0, 2⟩, ⟨2, 2⟩, ⟨4, 2⟩, ⟨6, 2⟩] := by
  rw [createPaginationChunks_eval 2 8 4 (by decide) (by decide) (by decide) (by decide)
    (by rw [Int.ceil_eq_iff]; norm_num)]
  norm_num [List.range_succ]

/-- Sum of a function mapped over `List.range` as a `Finset` sum. -/
lemma range_map_sum (f : ℕ → ℚ) (n : ℕ) :
    ((List.range n).map f).sum = ∑ i in Finset.range n, f i := by
  induction n with
  | zero => simp
  | succ m ih => rw [List.range_succ, Finset.sum_range_succ]; simp [ih]

/-- The ceiling of `T / P` is nonnegative for nonnegative `T`, positive `P`. -/
lemma ceil_div_nonneg {P T : ℚ} (hP0 : 0 < P) (hT0 : 0 ≤ T) : 0 ≤ ⌈T / P⌉ :=
  Int.ceil_nonneg (div_nonneg hT0 hP0.le)

/-- The page count is zero exactly for an empty result set. -/
lemma ceil_div_eq_zero_iff {P T : ℚ} (hP0 : 0 < P) (hT0 : 0 ≤ T) :
    ⌈T / P⌉ = 0 ↔ T = 0 := by
  constructor
  · intro h
    have h1 : T / P ≤ 0 := by
      have := Int.ceil_le.mp h.le
      simpa using this
    have h2 : 0 ≤ T / P := div_nonneg hT0 hP0.le
    have h3 : T / P = 0 := le_antisymm h1 h2
    rcases div_eq_zero_iff.mp h3 with h4 | h4
    · exact h4
    · exact absurd h4 hP0.ne'
  · intro h
    rw [h, zero_div, Int.ceil_zero]

/-! Claim theorems. -/

/-- C2: for every positive safe integer pageSize `P` and non-negative safe
integer total `T`, `createPaginationChunks` returns an ordered window
sequence exactly tiling `[0, T)`: window `i` starts at `i * P`, every
window except the last has size `P`, the last window's size is
`T - P * (ceil(T / P) - 1)`, each window starts where the previous one
ends, the sizes sum to `T`, and the sequence is empty iff `T = 0`. -/
theorem C2_planner_tiling (P T : ℚ) (hP : IsSafeInteger P) (hP0 : 0 < P)
    (hT : IsSafeInteger T) (hT0 : 0 ≤ T) :
    ∃ ws, createPaginationChunks P T = .ok ws ∧
      ws.length = (⌈T / P⌉).toNat ∧
      (∀ i (h : i < ws.length), (ws.get ⟨i, h⟩).startAt = (i : ℚ) * P) ∧
      (∀ i (h : i < ws.length), i + 1 < ws.length → (ws.get ⟨i, h⟩).pageSize = P) ∧
      (∀ h : ws ≠ [], (ws.getLast h).pageSize = T - P * ((⌈T / P⌉ : ℚ) - 1)) ∧
      (ws.map PageWindow.pageSize).sum = T ∧
      (∀ i (h1 : i + 1 < ws.length) (h2 : i < ws.length),
        (ws.get ⟨i + 1, h1⟩).startAt =
          (ws.get ⟨i, h2⟩).startAt + (ws.get ⟨i, h2⟩).pageSize) ∧
      (T = 0 ↔ ws = []) := by
  have hcnn : 0 ≤ ⌈T / P⌉ := ceil_div_nonneg hP0 hT0
  have hcast : ((⌈T / P⌉.toNat : ℤ)) = ⌈T / P⌉ := Int.toNat_of_nonneg hcnn
  have hcastQ : ((⌈T / P⌉.toNat : ℚ)) = ((⌈T / P⌉ : ℚ)) := by
    exact_mod_cast congrArg Int.cast hcast
  refine ⟨_, createPaginationChunks_ok P T hP hP0 hT hT0, ?_, ?_, ?_, ?_, ?_, ?_, ?_⟩
  · simp
  · intro i h
    simp only [List.get_eq_getElem, List.getElem_map, List.getElem_range]
  · intro i h hlt
    simp only [List.length_map, List.length_range] at hlt
    simp only [List.get_eq_getElem, List.getElem_map, List.getElem_range]
    rw [if_neg (by omega)]
  · intro h
    have hne : ⌈T / P⌉.toNat ≠ 0 := by
      intro h0
      apply h
      simp [h0]
    rw [List.getLast_eq_getElem]
    simp only [List.length_map, List.length_range, List.getElem_map, List.getElem_range]
    simp
  · rw [List.map_map]
    have hmap : (PageWindow.pageSize ∘ fun (index : ℕ) =>
        PageWindow.mk ((index : ℚ) * P)
          (if index = ⌈T / P⌉.toNat - 1 then T - P * ((⌈T / P⌉ : ℚ) - 1) else P))
        = fun (index : ℕ) =>
          (if index = ⌈T / P⌉.toNat - 1 then T - P * ((⌈T / P⌉ : ℚ) - 1) else P) := rfl
    rw [hmap, range_map_sum]
    rcases Nat.eq_zero_or_pos (⌈T / P⌉.toNat) with h0 | hpos
    · rw [h0]
      have hT0q : T = 0 := by
        refine (ceil_div_eq_zero_iff hP0 hT0).mp ?_
        omega
      simp [hT0q]
    · obtain ⟨m, hm⟩ : ∃ m, ⌈T / P⌉.toNat = m + 1 :=
        ⟨⌈T / P⌉.toNat - 1, (Nat.succ_pred_eq_of_pos hpos).symm⟩
      rw [hm, Finset.sum_range_succ]
      have hrest : (∑ i in Finset.range m,
          if i = m + 1 - 1 then T - P * ((⌈T / P⌉ : ℚ) - 1) else P) = (m : ℚ) * P := by
        rw [Finset.sum_congr rfl (fun i hi => if_neg (by
          simp only [Finset.mem_range] at hi
          omega))]
        rw [Finset.sum_const, Finset.card_range, nsmul_eq_mul]
      have hQ : ((⌈T / P⌉ : ℚ)) = (m : ℚ) + 1 := by
        rw [← hcastQ, hm]
        push_cast
        ring
      rw [hrest, Nat.add_sub_cancel, if_pos rfl, hQ]
      ring
  · intro i h1 h2
    simp only [List.length_map, List.length_range] at h1
    have hne : i ≠ ⌈T / P⌉.toNat - 1 := by omega
    simp only [List.get_eq_getElem, List.getElem_map, List.getElem_range]
    rw [if_neg hne]
    push_cast
    ring
  · constructor
    · intro h
      have hc : ⌈T / P⌉ = 0 := (ceil_div_eq_zero_iff hP0 hT0).mpr h
      simp [hc]
    · intro h
      have hlen : ⌈T / P⌉.toNat = 0 := by
        have hl := congrArg List.length h
        simpa using hl
      refine (ceil_div_eq_zero_iff hP0 hT0).mp ?_
      omega

/-- Witness for C2 at the repository's own test case `pageSize 10,
total 25`. -/
theorem C2_planner_tiling_witness :
    ∃ ws, createPaginationChunks 10 25 = .ok ws ∧
      ws.length = (⌈(25 : ℚ) / 10⌉).toNat ∧
      (∀ i (h : i < ws.length), (ws.get ⟨i, h⟩).startAt = (i : ℚ) * 10) ∧
      (∀ i (h : i < ws.length), i + 1 < ws.length → (ws.get ⟨i, h⟩).pageSize = 10) ∧
      (∀ h : ws ≠ [], (ws.getLast h).pageSize = 25 - 10 * ((⌈(25 : ℚ) / 10⌉ : ℚ) - 1)) ∧
      (ws.map PageWindow.pageSize).sum = 25 ∧
      (∀ i (h1 : i + 1 < ws.length) (h2 : i < ws.length),
        (ws.get ⟨i + 1, h1⟩).startAt =
          (ws.get ⟨i, h2⟩).startAt + (ws.get ⟨i, h2⟩).pageSize) ∧
      ((25 : ℚ) = 0 ↔ ws = []) :=
  C2_planner_tiling 10 25 (by decide) (by decide) (by decide) (by decide)

/-- C4: `createPaginationChunks` fails with the `InvalidArgument`-style
`TypeError` whenever pageSize is non-positive or not an integer, or total
is negative or not an integer; on every input of its contract (positive
safe integer pageSize, non-negative safe integer total) it succeeds. -/
theorem C4_planner_guards (P T : ℚ) :
    ((P.den ≠ 1 ∨ P ≤ 0 ∨ T.den ≠ 1 ∨ T < 0) →
      ∃ e, createPaginationChunks P T = .error e) ∧
    (IsSafeInteger P → 0 < P → IsSafeInteger T → 0 ≤ T →
      ∃ ws, createPaginationChunks P T = .ok ws) := by
  constructor
  · intro h
    by_cases hP : ¬ IsSafeInteger P ∨ P ≤ 0
    · exact ⟨_, by unfold createPaginationChunks; rw [if_pos hP]⟩
    · push_neg at hP
      have hT : ¬ IsSafeInteger T ∨ T < 0 := by
        rcases h with h | h | h | h
        · exact absurd hP.1.1 h
        · exact absurd h (not_le.mpr hP.2)
        · exact Or.inl (fun c => h c.1)
        · exact Or.inr h
      refine ⟨.typeError "Option total needs to be a non-negative safe integer.", ?_⟩
      unfold createPaginationChunks
      rw [if_neg (by push_neg; exact hP), if_pos hT]
  · intro h1 h2 h3 h4
    exact ⟨_, createPaginationChunks_ok P T h1 h2 h3 h4⟩

/-- Witness for C4: the guard fires at `pageSize = -10, total = 100` and
the planner succeeds at `pageSize = 10, total = 25` (the repository's test
inputs). -/
theorem C4_planner_guards_witness :
    (∃ e, createPaginationChunks (-10) 100 = .error e) ∧
    (∃ ws, createPaginationChunks 10 25 = .ok ws) :=
  ⟨(C4_planner_guards (-10) 100).1 (Or.inr (Or.inl (by norm_num))),
   (C4_planner_guards 10 25).2 (by decide) (by decide) (by decide) (by decide)⟩

/-- C5: `getComponents` fails with `JiraResponseError` carrying the url,
status and status text for every non-200 response, and with the `ZodError`
produced by the validator for every 200 response whose body does not match
the component-list shape. -/
theorem C5_getComponents_errors (cfg : JiraConfig) (server : Url → HttpResponse) :
    ((server (componentsUrl cfg)).status ≠ 200 →
      getComponentsRun cfg server = ([componentsUrl cfg],
        .error (.jiraResponseError (componentsUrl cfg)
          (server (componentsUrl cfg)).status (server (componentsUrl cfg)).statusText))) ∧
    (∀ e, (server (componentsUrl cfg)).status = 200 →
      parseGetComponentsResponse (server (componentsUrl cfg)).body = .error e →
      getComponentsRun cfg server = ([componentsUrl cfg], .error (.zodError e))) := by
  constructor
  · intro h
    simp [getComponentsRun, h]
  · intro e h1 h2
    simp [getComponentsRun, h1, h2]

/-- Witness for C5: a 400 response and the 200 response with body
`{ "abc": "xyz" }` from the repository's tests. -/
theorem C5_getComponents_errors_witness :
    getComponentsRun cfgX server400 = ([componentsUrl cfgX],
      .error (.jiraResponseError (componentsUrl cfgX) 400 "Bad Request")) ∧
    getComponentsRun cfgX serverAbcXyz = ([componentsUrl cfgX],
      .error (.zodError ⟨[], "Expected array"⟩)) :=
  ⟨(C5_getComponents_errors cfgX server400).1 (by decide),
   (C5_getComponents_errors cfgX serverAbcXyz).2 ⟨[], "Expected array"⟩ (by decide) (by decide)⟩

/-- The component-array validator is index-by-index: it succeeds exactly
when every element does, preserving length and order. -/
lemma parseComponentItems_ok_parts (p : List String) (xs : List Json) :
    ∀ (i : ℕ) (cs : List Component), parseComponentItems p i xs = .ok cs →
      cs.length = xs.length ∧
      ∀ (j : ℕ) (hj : j < xs.length) (hj2 : j < cs.length),
        parseComponent (p ++ [toString (i + j)]) (xs.get ⟨j, hj⟩) = .ok (cs.get ⟨j, hj2⟩) := by
  induction xs with
  | nil =>
    intro i cs h
    simp only [parseComponentItems] at h
    injection h with h
    subst h
    refine ⟨rfl, ?_⟩
    intro j hj
    exact absurd hj (by simp)
  | cons x rest ih =>
    intro i cs h
    simp only [parseComponentItems, bind, Except.bind] at h
    cases hx : parseComponent (p ++ [toString i]) x with
    | error e => rw [hx] at h; exact absurd h (by simp)
    | ok c =>
      rw [hx] at h
      cases hrest : parseComponentItems p (i + 1) rest with
      | error e => rw [hrest] at h; exact absurd h (by simp)
      | ok cs2 =>
        rw [hrest] at h
        injection h with h
        subst h
        obtain ⟨hlen, hpoint⟩ := ih (i + 1) cs2 hrest
        refine ⟨by simp [hlen], ?_⟩
        intro j hj hj2
        cases j with
        | zero => simpa using hx
        | succ k =>
          have hk : k < rest.length := by simpa using hj
          have hk2 : k < cs2.length := by simpa using hj2
          have := hpoint k hk hk2
          simpa [Nat.add_assoc, Nat.add_comm 1 k] using this

/-- C6: `getComponents` returns the validated list unmodified for every
200 response with a valid body; validation of an array is element-wise in
server order; the empty array validates to the empty list; and with an
empty component list the aggregator reports zero unled components without
any further request. -/
theorem C6_getComponents_unmodified (cfg : JiraConfig) (server : Url → HttpResponse) :
    (∀ cs, (server (componentsUrl cfg)).status = 200 →
      parseGetComponentsResponse (server (componentsUrl cfg)).body = .ok cs →
      getComponentsRun cfg server = ([componentsUrl cfg], .ok cs)) ∧
    (parseGetComponentsResponse (.arr []) = .ok []) ∧
    (∀ xs cs, parseGetComponentsResponse (.arr xs) = .ok cs →
      cs.length = xs.length ∧
      ∀ (j : ℕ) (hj : j < xs.length) (hj2 : j < cs.length),
        parseComponent [toString j] (xs.get ⟨j, hj⟩) = .ok (cs.get ⟨j, hj2⟩)) ∧
    (∀ order, (server (componentsUrl cfg)).status = 200 →
      (server (componentsUrl cfg)).body = .arr [] →
      getJiraComponentsWithoutLeadRun cfg server order = ([componentsUrl cfg], .ok [])) := by
  refine ⟨?_, by decide, ?_, ?_⟩
  · intro cs h1 h2
    simp [getComponentsRun, h1, h2]
  · intro xs cs h
    obtain ⟨hlen, hpoint⟩ := parseComponentItems_ok_parts [] xs 0 cs h
    refine ⟨hlen, ?_⟩
    intro j hj hj2
    simpa using hpoint j hj hj2
  · intro order h1 h2
    simp [getJiraComponentsWithoutLeadRun, getComponentsRun, h1, h2,
      parseGetComponentsResponse, parseComponentItems]

/-- Witness for C6: the empty-array body, through both `getComponents` and
the aggregator. -/
theorem C6_getComponents_unmodified_witness :
    getComponentsRun cfgX serverEmptyComponents = ([componentsUrl cfgX], .ok []) ∧
    getJiraComponentsWithoutLeadRun cfgX serverEmptyComponents [] =
      ([componentsUrl cfgX], .ok []) :=
  ⟨(C6_getComponents_unmodified cfgX serverEmptyComponents).1 [] (by decide) (by decide),
   (C6_getComponents_unmodified cfgX serverEmptyComponents).2.2.2 [] (by decide) rfl⟩

/-- C10: when every fetched component has a lead, the aggregator returns
the empty report after the single components request — no issue-search
request is made and `getIssuesByComponents` is never invoked. -/
theorem C10_all_lead_no_search (cfg : JiraConfig) (server : Url → HttpResponse)
    (order : List Nat) (components : List Component)
    (h1 : (server (componentsUrl cfg)).status = 200)
    (h2 : parseGetComponentsResponse (server (componentsUrl cfg)).body = .ok components)
    (h3 : ∀ c ∈ components, c.lead.isSome) :
    getJiraComponentsWithoutLeadRun cfg server order = ([componentsUrl cfg], .ok []) := by
  have hfilter : components.filter (fun c => c.lead.isNone) = [] := by
    rw [List.filter_eq_nil_iff]
    intro c hc
    have hs := h3 c hc
    cases hl : c.lead with
    | none => rw [hl] at hs; simp at hs
    | some v => simp [hl]
  simp [getJiraComponentsWithoutLeadRun, getComponentsRun, h1, h2, hfilter]

/-- Witness for C10: a non-empty component list whose single component has
a lead. -/
theorem C10_all_lead_no_search_witness :
    getJiraComponentsWithoutLeadRun cfgX serverAllLead [] = ([componentsUrl cfgX], .ok []) :=
  C10_all_lead_no_search cfgX serverAllLead []
    [{ id := "10128", name := "Synchronization", lead := some ⟨"a1", "Ada"⟩ }]
    (by decide) (by decide) (by decide)

/-- Folding one issue's component references into the count map adds, for
every key, the number of references carrying that key. -/
lemma refsFold_count (refs : List IssueComponentRef) (m : String → Option Nat) (k : String) :
    ((refs.foldl (fun m2 comp => mapSet m2 comp.id ((m2 comp.id).getD 0 + 1)) m) k).getD 0
      = (m k).getD 0 + refs.countP (fun r => r.id == k) := by
  induction refs generalizing m with
  | nil => simp
  | cons r rest ih =>
    simp only [List.foldl_cons, List.countP_cons]
    rw [ih]
    by_cases h : k = r.id
    · subst h
      simp [mapSet]
      omega
    · have hb : (r.id == k) = false := by
        simp [Ne.symm h]
      simp [mapSet, h, hb]

/-- The count map of `getJiraComponentsWithoutLead` computes, for every
key, the total number of component references with that id over all
issues. -/
lemma issuesCount_eq_referenceCount (issues : List Issue) (k : String) :
    ((issuesCountByComponentId issues) k).getD 0 = referenceCount issues k := by
  suffices h : ∀ m : String → Option Nat,
      ((issues.foldl
        (fun m issue =>
          issue.fields.components.foldl
            (fun m2 comp => mapSet m2 comp.id ((m2 comp.id).getD 0 + 1)) m)
        m) k).getD 0
        = (m k).getD 0 + referenceCount issues k by
    simpa [issuesCountByComponentId] using h (fun _ => none)
  induction issues with
  | nil => intro m; simp [referenceCount]
  | cons issue rest ih =>
    intro m
    simp only [List.foldl_cons]
    rw [ih, refsFold_count]
    simp [referenceCount]
    omega

/-- C7 (amended): for every fetched component list and issue list, the
aggregation step emits one entry per component lacking a lead, in order,
whose `issues` field is the number of component references with that id
across all fetched issues (not the number of distinct referencing issues);
in the claim's concrete scenario — one unled component `C1` and two issues
each referencing it once — the output is exactly `[{C1, Backend, 2}]`. -/
theorem C7_aggregator_reference_counts :
    (∀ (components : List Component) (issues : List Issue),
      reportFor (components.filter fun c => c.lead.isNone) issues =
        (components.filter fun c => c.lead.isNone).map fun c =>
          { id := c.id, name := c.name, issues := referenceCount issues c.id }) ∧
    reportFor [{ id := "C1", name := "Backend", lead := none }]
        [issueVal "1" [("C1", "Backend")], issueVal "2" [("C1", "Backend")]] =
      [{ id := "C1", name := "Backend", issues := 2 }] := by
  constructor
  · intro components issues
    unfold reportFor
    simp [issuesCount_eq_referenceCount]
  · decide

/-- Counterexample to C7 as stated: an issue listing the same component
twice is counted twice by the code, whereas the claim's issue count — the
number of matching issues referencing the component id — is 1. -/
theorem C7_counterexample :
    reportFor [{ id := "C1", name := "Backend", lead := none }]
        [issueVal "1" [("C1", "Backend"), ("C1", "Backend")]] =
      [{ id := "C1", name := "Backend", issues := 2 }] ∧
    specIssuesReferencingCount [issueVal "1" [("C1", "Backend"), ("C1", "Backend")]] "C1" = 1 ∧
    reportFor [{ id := "C1", name := "Backend", lead := none }]
        [issueVal "1" [("C1", "Backend"), ("C1", "Backend")]] ≠
      ([{ id := "C1", name := "Backend", lead := none }] : List Component).map
        (fun (c : Component) =>
          ({ id := c.id, name := c.name,
             issues := specIssuesReferencingCount
               [issueVal "1" [("C1", "Backend"), ("C1", "Backend")]] c.id } : ReportEntry)) := by
  refine ⟨by decide, by decide, by decide⟩

/-- A `Promise.all` whose callbacks all fulfilled rejects in no completion
order. -/
lemma firstRejection_none {e a : Type} (results : List (Except e a)) (order : List Nat)
    (h : ∀ r ∈ results, ∃ x, r = .ok x) : firstRejection results order = none := by
  induction order with
  | nil => rfl
  | cons i rest ih =>
    simp only [firstRejection]
    cases hg : results.get? i with
    | none => exact ih
    | some r =>
      cases r with
      | ok x => exact ih
      | error err =>
        obtain ⟨x, hx⟩ := h (.error err) (List.get?_mem hg)
        exact absurd hx (by simp)

/-- An empty batch of concurrent callbacks rejects in no completion
order. -/
lemma firstRejection_nil {e a : Type} (order : List Nat) :
    firstRejection ([] : List (Except e a)) order = none := by
  induction order with
  | nil => rfl
  | cons i rest ih => simp [firstRejection, ih]

/-- With no remaining windows, the concurrent phase issues no request and
resolves to the first batch unchanged. -/
lemma issuesPhase2_nil (u : Url) (server : Url → HttpResponse) (order : List Nat)
    (b : List Issue) : issuesPhase2 u server order b [] = ([u], .ok b) := by
  simp [issuesPhase2, issueFanout, firstRejection_nil, collectOk]

/-- Reduction of `getIssuesByComponents` past a successful, valid first
page and a successful planner call. -/
lemma getIssuesRun_reduce (cfg : JiraConfig) (ids : List String)
    (server : Url → HttpResponse) (order : List Nat) (p : IssuePage)
    (chunks : List PageWindow)
    (h1 : (server (initialSearchUrl cfg ids)).status = 200)
    (h2 : parseGetIssuesByComponentsResponse (server (initialSearchUrl cfg ids)).body = .ok p)
    (h3 : createPaginationChunks p.maxResults p.total = .ok chunks) :
    getIssuesByComponentsRun cfg ids server order =
      issuesPhase2 (initialSearchUrl cfg ids) server order p.issues (chunks.drop 1) := by
  simp [getIssuesByComponentsRun, h1, h2, h3]

/-- When the reported total fits into the confirmed page size, the plan
has at most one window, so nothing remains after dropping the first. -/
lemma createPaginationChunks_single (P T : ℚ) (h1 : IsSafeInteger P) (h2 : 0 < P)
    (h3 : IsSafeInteger T) (h4 : 0 ≤ T) (h5 : T ≤ P) :
    ∃ chunks, createPaginationChunks P T = .ok chunks ∧ chunks.drop 1 = [] := by
  refine ⟨_, createPaginationChunks_ok P T h1 h2 h3 h4, ?_⟩
  apply List.drop_eq_nil_of_le
  simp only [List.length_map, List.length_range]
  have hc : ⌈T / P⌉ ≤ 1 := by
    rw [Int.ceil_le]
    push_cast
    rw [div_le_one h2]
    exact h5
  omega

/-- C9 (amended): whenever the first page parses and its `maxResults` is a
positive safe integer at least the non-negative safe integer `total`
(including `total = 0`), exactly one request is issued and the first
page's issue batch is returned unchanged. -/
theorem C9_single_page (cfg : JiraConfig) (ids : List String)
    (server : Url → HttpResponse) (order : List Nat) (p : IssuePage)
    (h1 : (server (initialSearchUrl cfg ids)).status = 200)
    (h2 : parseGetIssuesByComponentsResponse (server (initialSearchUrl cfg ids)).body = .ok p)
    (h3 : IsSafeInteger p.maxResults) (h4 : 0 < p.maxResults)
    (h5 : IsSafeInteger p.total) (h6 : 0 ≤ p.total) (h7 : p.total ≤ p.maxResults) :
    getIssuesByComponentsRun cfg ids server order =
      ([initialSearchUrl cfg ids], .ok p.issues) := by
  obtain ⟨chunks, hchunks, hdrop⟩ :=
    createPaginationChunks_single p.maxResults p.total h3 h4 h5 h6 h7
  rw [getIssuesRun_reduce cfg ids server order p chunks h1 h2 hchunks, hdrop,
    issuesPhase2_nil]

/-- Witness for the amended C9: a first page reporting `maxResults = 50`,
`total = 0` yields one request and the empty batch. -/
theorem C9_single_page_witness :
    getIssuesByComponentsRun cfgX ["c1"] serverTotalZero [] =
      ([initialSearchUrl cfgX ["c1"]], .ok []) :=
  C9_single_page cfgX ["c1"] serverTotalZero [] ⟨0, 50, 0, []⟩
    (by decide) (by decide) (by decide) (by decide) (by decide) (by decide) (by decide)

/-- Counterexample to C9 as stated: a first page reporting
`maxResults = 0`, `total = 0` satisfies `maxResults ≥ total`, but the run
rejects with the planner's `TypeError` instead of returning the first
batch. -/
theorem C9_counterexample :
    getIssuesByComponentsRun cfgX ["c1"] serverZeroZero [] =
      ([initialSearchUrl cfgX ["c1"]],
        .error (.typeError "Option pageSize needs to be a positive safe integer.")) ∧
    (getIssuesByComponentsRun cfgX ["c1"] serverZeroZero []).2 ≠
      .ok ([] : List Issue) := by
  refine ⟨by decide, by decide⟩

/-- Planner evaluation at pageSize 2, total 6. -/
lemma chunks_2_6 : createPaginationChunks 2 6 =
    .ok [⟨0, 2⟩, ⟨2, 2⟩, ⟨4, 2⟩] := by
  rw [createPaginationChunks_eval 2 6 3 (by decide) (by decide) (by decide) (by decide)
    (by rw [Int.ceil_eq_iff]; norm_num)]
  norm_num [List.range_succ]

/-- Planner evaluation at pageSize 2, total 4. -/
lemma chunks_2_4 : createPaginationChunks 2 4 =
    .ok [⟨0, 2⟩, ⟨2, 2⟩] := by
  rw [createPaginationChunks_eval 2 4 2 (by decide) (by decide) (by decide) (by decide)
    (by rw [Int.ceil_eq_iff]; norm_num)]
  norm_num [List.range_succ]

/-- C3 (code evaluated at the failing input): with total 6 at page size 2,
the `startAt=2` page returning HTTP 400 rejects the whole run with a
`JiraResponseError` whose status and status text are the failing
request's, but whose url is the shared search URL in its final state —
`startAt=4`, the last window's parameters — not the failing request's
`startAt=2` url. -/
theorem C3_stale_url_in_error :
    getIssuesByComponentsRun cfgX ["c1"] serverFail2of6 [0, 1] =
      ([initialSearchUrl cfgX ["c1"],
        ((initialSearchUrl cfgX ["c1"]).setP "startAt" "2").setP "maxResults" "2",
        (((((initialSearchUrl cfgX ["c1"]).setP "startAt" "2").setP "maxResults" "2").setP
          "startAt" "4").setP "maxResults" "2")],
       .error (.jiraResponseError
         (((((initialSearchUrl cfgX ["c1"]).setP "startAt" "2").setP "maxResults" "2").setP
           "startAt" "4").setP "maxResults" "2") 400 "Bad Request")) ∧
    ((((((initialSearchUrl cfgX ["c1"]).setP "startAt" "2").setP "maxResults" "2").setP
      "startAt" "4").setP "maxResults" "2")).getP "startAt" = some "4" ∧
    (((initialSearchUrl cfgX ["c1"]).setP "startAt" "2").setP "maxResults" "2").getP
      "startAt" = some "2" ∧
    (((((initialSearchUrl cfgX ["c1"]).setP "startAt" "2").setP "maxResults" "2").setP
      "startAt" "4").setP "maxResults" "2") ≠
      ((initialSearchUrl cfgX ["c1"]).setP "startAt" "2").setP "maxResults" "2" := by
  refine ⟨?_, by decide, by decide, by decide⟩
  rw [getIssuesRun_reduce cfgX ["c1"] serverFail2of6 [0, 1]
    ⟨0, 2, 6, [issueVal "1" [("c1", "C")], issueVal "2" [("c1", "C")]]⟩
    [⟨0, 2⟩, ⟨2, 2⟩, ⟨4, 2⟩] (by decide) (by decide) chunks_2_6]
  decide

/-- C8 (code evaluated at the failing input): the error reported for the
identical failing `startAt=2` request carries different urls depending on
whether a sibling `startAt=4` window exists — the concurrent callbacks
share one mutable URL object, so the fetches are not independent of each
other. -/
theorem C8_shared_url_across_requests :
    (getIssuesByComponentsRun cfgX ["c1"] serverFail2of6 [0, 1]).2 =
      .error (.jiraResponseError
        (((((initialSearchUrl cfgX ["c1"]).setP "startAt" "2").setP "maxResults" "2").setP
          "startAt" "4").setP "maxResults" "2") 400 "Bad Request") ∧
    (getIssuesByComponentsRun cfgX ["c1"] serverFail2of4 [0]).2 =
      .error (.jiraResponseError
        (((initialSearchUrl cfgX ["c1"]).setP "startAt" "2").setP "maxResults" "2")
        400 "Bad Request") ∧
    (((((initialSearchUrl cfgX ["c1"]).setP "startAt" "2").setP "maxResults" "2").setP
      "startAt" "4").setP "maxResults" "2") ≠
      ((initialSearchUrl cfgX ["c1"]).setP "startAt" "2").setP "maxResults" "2" := by
  refine ⟨?_, ?_, by decide⟩
  · rw [getIssuesRun_reduce cfgX ["c1"] serverFail2of6 [0, 1]
      ⟨0, 2, 6, [issueVal "1" [("c1", "C")], issueVal "2" [("c1", "C")]]⟩
      [⟨0, 2⟩, ⟨2, 2⟩, ⟨4, 2⟩] (by decide) (by decide) chunks_2_6]
    decide
  · rw [getIssuesRun_reduce cfgX ["c1"] serverFail2of4 [0]
      ⟨0, 2, 4, [issueVal "1" [("c1", "C")], issueVal "2" [("c1", "C")]]⟩
      [⟨0, 2⟩, ⟨2, 2⟩] (by decide) (by decide) chunks_2_4]
    decide

/-- C1: when the first page reports total 8 and a server-confirmed page
size of 2 (every batch two issues long), the run issues exactly the four
requests with `startAt` 0, 2, 4, 6 and returns all 8 issues concatenated
in window order, for every completion order of the concurrent requests. -/
theorem C1_paginated_fetch (cfg : JiraConfig) (ids : List String)
    (server : Url → HttpResponse) (order : List Nat)
    (u0 u1 u2 u3 : Url) (p0 p1 p2 p3 : IssuePage)
    (hu0 : u0 = initialSearchUrl cfg ids)
    (hu1 : u1 = (u0.setP "startAt" "2").setP "maxResults" "2")
    (hu2 : u2 = (u1.setP "startAt" "4").setP "maxResults" "2")
    (hu3 : u3 = (u2.setP "startAt" "6").setP "maxResults" "2")
    (h0s : (server u0).status = 200)
    (h0p : parseGetIssuesByComponentsResponse (server u0).body = .ok p0)
    (h0m : p0.maxResults = 2) (h0t : p0.total = 8) (h0l : p0.issues.length = 2)
    (h1s : (server u1).status = 200)
    (h1p : parseGetIssuesByComponentsResponse (server u1).body = .ok p1)
    (h1l : p1.issues.length = 2)
    (h2s : (server u2).status = 200)
    (h2p : parseGetIssuesByComponentsResponse (server u2).body = .ok p2)
    (h2l : p2.issues.length = 2)
    (h3s : (server u3).status = 200)
    (h3p : parseGetIssuesByComponentsResponse (server u3).body = .ok p3)
    (h3l : p3.issues.length = 2) :
    getIssuesByComponentsRun cfg ids server order =
      ([u0, u1, u2, u3], .ok (p0.issues ++ (p1.issues ++ (p2.issues ++ p3.issues)))) ∧
    (p0.issues ++ (p1.issues ++ (p2.issues ++ p3.issues))).length = 8 ∧
    [u0, u1, u2, u3].map (fun u => u.getP "startAt") =
      [some "0", some "2", some "4", some "6"] := by
  subst hu0 hu1 hu2 hu3
  have hch : createPaginationChunks p0.maxResults p0.total =
      .ok [⟨0, 2⟩, ⟨2, 2⟩, ⟨4, 2⟩, ⟨6, 2⟩] := by
    rw [h0m, h0t]
    exact chunks_2_8
  have hjs2 : jsNumberToString 2 = "2" := by decide
  have hjs4 : jsNumberToString 4 = "4" := by decide
  have hjs6 : jsNumberToString 6 = "6" := by decide
  refine ⟨?_, ?_, ?_⟩
  · rw [getIssuesRun_reduce cfg ids server order p0 _ h0s h0p hch]
    simp only [List.drop_succ_cons, List.drop_zero, issuesPhase2, issueFanout,
      List.foldl_cons, List.foldl_nil, hjs2, hjs4, hjs6, List.nil_append,
      List.map_cons, List.map_nil, List.append_assoc, List.cons_append,
      processPageResponse, h1s, h1p, h2s, h2p, h3s, h3p, ne_eq, not_true, if_false]
    rw [firstRejection_none
      [Except.ok p1.issues, Except.ok p2.issues, Except.ok p3.issues] order
      (by
        intro r hr
        simp only [List.mem_cons, List.not_mem_nil, or_false] at hr
        rcases hr with rfl | rfl | rfl
        · exact ⟨p1.issues, rfl⟩
        · exact ⟨p2.issues, rfl⟩
        · exact ⟨p3.issues, rfl⟩)]
    simp [collectOk]
  · simp [h0l, h1l, h2l, h3l]
  · simp [initialSearchUrl, Url.setP, Url.getP, setParamList, List.find?]

/-- Witness for C1: the four-page total-8 scenario of the repository's
paginated test, under completion order 2, 0, 1. -/
theorem C1_paginated_fetch_witness :
    getIssuesByComponentsRun cfgX ["c1"] serverPaged8 [2, 0, 1] =
      ([initialSearchUrl cfgX ["c1"],
        ((initialSearchUrl cfgX ["c1"]).setP "startAt" "2").setP "maxResults" "2",
        (((((initialSearchUrl cfgX ["c1"]).setP "startAt" "2").setP "maxResults" "2").setP
          "startAt" "4").setP "maxResults" "2"),
        (((((((initialSearchUrl cfgX ["c1"]).setP "startAt" "2").setP "maxResults" "2").setP
          "startAt" "4").setP "maxResults" "2").setP "startAt" "6").setP "maxResults" "2")],
       .ok ([issueVal "1" [("c1", "C")], issueVal "2" [("c1", "C")]] ++
         ([issueVal "3" [("c1", "C")], issueVal "4" [("c1", "C")]] ++
           ([issueVal "5" [("c1", "C")], issueVal "6" [("c1", "C")]] ++
             [issueVal "7" [("c1", "C")], issueVal "8" [("c1", "C")]])))) ∧
    ([issueVal "1" [("c1", "C")], issueVal "2" [("c1", "C")]] ++
      ([issueVal "3" [("c1", "C")], issueVal "4" [("c1", "C")]] ++
        ([issueVal "5" [("c1", "C")], issueVal "6" [("c1", "C")]] ++
          [issueVal "7" [("c1", "C")], issueVal "8" [("c1", "C")]]))).length = 8 ∧
    [initialSearchUrl cfgX ["c1"],
      ((initialSearchUrl cfgX ["c1"]).setP "startAt" "2").setP "maxResults" "2",
      (((((initialSearchUrl cfgX ["c1"]).setP "startAt" "2").setP "maxResults" "2").setP
        "startAt" "4").setP "maxResults" "2"),
      (((((((initialSearchUrl cfgX ["c1"]).setP "startAt" "2").setP "maxResults" "2").setP
        "startAt" "4").setP "maxResults" "2").setP "startAt" "6").setP "maxResults" "2")].map
        (fun u => u.getP "startAt") =
      [some "0", some "2", some "4", some "6"] :=
  C1_paginated_fetch cfgX ["c1"] serverPaged8 [2, 0, 1] _ _ _ _
    ⟨0, 2, 8, [issueVal "1" [("c1", "C")], issueVal "2" [("c1", "C")]]⟩
    ⟨2, 2, 8, [issueVal "3" [("c1", "C")], issueVal "4" [("c1", "C")]]⟩
    ⟨4, 2, 8, [issueVal "5" [("c1", "C")], issueVal "6" [("c1", "C")]]⟩
    ⟨6, 2, 8, [issueVal "7" [("c1", "C")], issueVal "8" [("c1", "C")]]⟩
    rfl rfl rfl rfl
    (by decide) (by decide) (by decide) (by decide) (by decide)
    (by decide) (by decide) (by decide)
    (by decide) (by decide) (by decide)
    (by decide) (by decide) (by decide)
